import Mathlib

/-!
# Verification of the turno (queueing-ticket) service

Shallow embedding of `src/server_optimizado.js`: an Express HTTP service over a
single PostgreSQL table `turnos`, with a sequential ticket-label generator
(`generarTicket`), create-or-get (`POST /turno`), listing, PDF receipt rendering
(`GET /turno/:id/pdf`), update (`PUT /turno/:id`) and delete (`DELETE /turno/:id`).

The table is modelled as a list of rows in insertion order together with the
`SERIAL` counter for the primary key.  Each HTTP handler becomes a function from
the store (and the request data) to the new store and a response value.
-/

/-- Decimal digit character `'0'..'9'`, as in JS number-to-string conversion. -/
def digitChar (n : Nat) : Char := Char.ofNat (48 + n)

/-- Decimal digits of `n`, most significant first, with explicit structural fuel
(`n / 10 < n` for `n ≥ 10`, so fuel `n + 1` always suffices).
Models JS `String(n)` for the non-negative integers this program produces. -/
def decimalAux : Nat → Nat → List Char
  | 0, _ => []
  | fuel + 1, n =>
    if n < 10 then [digitChar n]
    else decimalAux fuel (n / 10) ++ [digitChar (n % 10)]

/-- JS `String(n)` for a natural number. -/
def decimalStr (n : Nat) : String := ⟨decimalAux (n + 1) n⟩

/-- JS `s.padStart(w, c)`: left-pad `s` with `c` up to width `w`
(no-op when `s` already has at least `w` characters). -/
def padStart (s : String) (w : Nat) (c : Char) : String :=
  ⟨List.replicate (w - s.data.length) c ++ s.data⟩

/-- A timestamp with minute precision, standing for the SQL `TIMESTAMP` column
`fecha` (the program never inspects finer granularity in its visible output). -/
structure Fecha where
  dia : Nat
  mes : Nat
  anio : Nat
  hora : Nat
  minuto : Nat
deriving Repr, DecidableEq

/-- Two-digit zero padding, as the `'2-digit'` options of `toLocaleDateString`. -/
def pad2 (n : Nat) : String := padStart (decimalStr n) 2 '0'

/-- `fecha.toLocaleDateString('es-ES', {day:'2-digit', month:'2-digit',
year:'numeric', hour:'2-digit', minute:'2-digit'})`: `DD/MM/YYYY, HH:MM`. -/
def formatFecha (f : Fecha) : String :=
  pad2 f.dia ++ "/" ++ pad2 f.mes ++ "/" ++ decimalStr f.anio ++ ", " ++
    pad2 f.hora ++ ":" ++ pad2 f.minuto

/-- One row of the `turnos` table (see `initDatabase`):
`id SERIAL PRIMARY KEY, id_usuario VARCHAR UNIQUE NOT NULL, nombre, solicitud,
ticket, fecha TIMESTAMP`. -/
structure Turno where
  id : Nat
  id_usuario : String
  nombre : String
  solicitud : String
  ticket : String
  fecha : Fecha
deriving Repr, DecidableEq

/-- The `turnos` table: rows in insertion order plus the `SERIAL` counter
for the next primary key. -/
structure Store where
  turnos : List Turno
  nextId : Nat
deriving Repr, DecidableEq

/-- `SELECT COUNT(*) FROM turnos`. -/
def countTurnos (s : Store) : Nat := s.turnos.length

/-- `generarTicket()`: count the rows and format
`` `T-${String(total + 1).padStart(4, '0')}` ``. -/
def generarTicket (s : Store) : String :=
  "T-" ++ padStart (decimalStr (countTurnos s + 1)) 4 '0'

/-- `SELECT * FROM turnos WHERE id_usuario = $1` (first matching row). -/
def findByUserId (s : Store) (u : String) : Option Turno :=
  s.turnos.find? (fun t => t.id_usuario == u)

/-- `SELECT * FROM turnos WHERE id = $1` (first matching row). -/
def findById (s : Store) (i : Nat) : Option Turno :=
  s.turnos.find? (fun t => t.id == i)

/-- `INSERT INTO turnos (id_usuario, nombre, solicitud, ticket, fecha)
VALUES ($1,$2,$3,$4,NOW()) RETURNING *`.  The `UNIQUE` constraint on
`id_usuario` makes the insert fail with a constraint violation when the user
already has a row; otherwise the row gets the next `SERIAL` id. -/
def insertTurno (s : Store) (u n r ticket : String) (now : Fecha) :
    Except String (Store × Turno) :=
  if s.turnos.any (fun t => t.id_usuario == u) then
    Except.error "ConstraintViolation"
  else
    let t : Turno := ⟨s.nextId, u, n, r, ticket, now⟩
    Except.ok (⟨s.turnos ++ [t], s.nextId + 1⟩, t)

/-- Response of `POST /turno`: 400 on missing fields, the existing row for a
repeated `id_usuario`, the freshly inserted row, or the generic 500 produced by
the `catch` block. -/
inductive PostTurnoResult where
  | validationError (error : String)
  | existing (turno : Turno) (mensaje : String)
  | created (turno : Turno) (mensaje : String)
  | serverError (error : String)
deriving Repr, DecidableEq

/-- `POST /turno` with the lookup (`SELECT ... WHERE id_usuario`) evaluated
against `sLook` and the later `INSERT` evaluated against `sIns`.  In the
sequential case the two stores coincide (`postTurno`); letting them differ
models another request landing between the two queries.  A failing insert is
caught by the handler's `catch` and answered with the generic 500. -/
def postTurnoRaced (now : Fecha) (sLook sIns : Store) (u n r : String) :
    Store × PostTurnoResult :=
  if u = "" ∨ n = "" ∨ r = "" then
    (sIns, PostTurnoResult.validationError
      "Faltan datos requeridos: id_usuario, nombre y solicitud son obligatorios")
  else
    match findByUserId sLook u with
    | some t => (sIns, PostTurnoResult.existing t ("Ya tienes un turno asignado: " ++ t.ticket))
    | none =>
      match insertTurno sIns u n r (generarTicket sIns) now with
      | Except.error _ => (sIns, PostTurnoResult.serverError "Error al procesar el turno")
      | Except.ok (s', t) => (s', PostTurnoResult.created t ("Turno asignado correctamente a " ++ n))

/-- `POST /turno` run sequentially: both queries see the same store. -/
def postTurno (now : Fecha) (s : Store) (u n r : String) : Store × PostTurnoResult :=
  postTurnoRaced now s s u n r

/-- Response of `PUT /turno/:id`. -/
inductive PutTurnoResult where
  | validationError (error : String)
  | notFound (error : String)
  | updated (turno : Turno) (mensaje : String)
deriving Repr, DecidableEq

/-- Effect of `UPDATE turnos SET nombre = $1, solicitud = $2 WHERE id = $3`
on one row. -/
def updateRow (i : Nat) (n r : String) (t : Turno) : Turno :=
  if t.id = i then { t with nombre := n, solicitud := r } else t

/-- `PUT /turno/:id`: 400 on missing fields, otherwise run the `UPDATE`;
`RETURNING *` yields the matching row (ids are unique), and zero affected rows
answer 404. -/
def putTurno (s : Store) (i : Nat) (n r : String) : Store × PutTurnoResult :=
  if n = "" ∨ r = "" then
    (s, PutTurnoResult.validationError "Faltan datos: nombre y solicitud son obligatorios")
  else
    let s' : Store := ⟨s.turnos.map (updateRow i n r), s.nextId⟩
    match findById s i with
    | none => (s', PutTurnoResult.notFound "Turno no encontrado")
    | some t => (s', PutTurnoResult.updated (updateRow i n r t) "Turno actualizado correctamente")

/-- Response of `DELETE /turno/:id`. -/
inductive DeleteTurnoResult where
  | notFound (error : String)
  | deleted (turno : Turno) (mensaje : String)
deriving Repr, DecidableEq

/-- `DELETE /turno/:id`: `DELETE FROM turnos WHERE id = $1 RETURNING *`;
zero affected rows answer 404, otherwise the removed row is returned. -/
def deleteTurno (s : Store) (i : Nat) : Store × DeleteTurnoResult :=
  match findById s i with
  | none => (s, DeleteTurnoResult.notFound "Turno no encontrado")
  | some t =>
    (⟨s.turnos.filter (fun x => !(x.id == i)), s.nextId⟩,
     DeleteTurnoResult.deleted t "Turno eliminado correctamente")

/-- The text drawn into the PDF receipt, top to bottom, one entry per
`doc.text(...)` call (a `continued: true` segment and its follow-up form one
line); separator rules and spacing carry no text.  `ahora` is the render-time
timestamp of the footer (`new Date()`). -/
def renderLines (t : Turno) (ahora : Fecha) : List String :=
  [ "🎫 COMPROBANTE DE TURNO"
  , "Sistema de Turnos ManyChat"
  , "Ticket: " ++ t.ticket
  , "Nombre: " ++ t.nombre
  , "ID Usuario: " ++ t.id_usuario
  , "Fecha y Hora: " ++ formatFecha t.fecha
  , "Solicitud:"
  , t.solicitud
  , "Este documento es un comprobante de turno. Guárdelo para futuras referencias."
  , "Generado el " ++ formatFecha ahora ]

/-- Response of `GET /turno/:id/pdf`. -/
inductive PdfResult where
  | notFound (error : String)
  | pdf (filename : String) (lines : List String)
deriving Repr, DecidableEq

/-- `GET /turno/:id/pdf`: look the row up, 404 when absent, otherwise stream the
receipt with `Content-Disposition` filename `turno-<ticket>.pdf`. -/
def getTurnoPdf (s : Store) (i : Nat) (ahora : Fecha) : Store × PdfResult :=
  match findById s i with
  | none => (s, PdfResult.notFound "Turno no encontrado")
  | some t => (s, PdfResult.pdf ("turno-" ++ t.ticket ++ ".pdf") (renderLines t ahora))

/-- Strip a literal text head from a line: `some` of the remainder when the line
starts with `p`, `none` otherwise. -/
def stripPrefixStr (p l : String) : Option String :=
  if p.data.isPrefixOf l.data then some ⟨l.data.drop p.data.length⟩ else none

/-- Read the ticket label back out of the rendered receipt (third text line,
after the fixed `Ticket: ` head). -/
def parseTicketLine : List String → Option String
  | _ :: _ :: l :: _ => stripPrefixStr "Ticket: " l
  | _ => none

/-- Read the name back out of the rendered receipt (fourth text line). -/
def parseNombreLine : List String → Option String
  | _ :: _ :: _ :: l :: _ => stripPrefixStr "Nombre: " l
  | _ => none

/-- Read the user id back out of the rendered receipt (fifth text line). -/
def parseIdUsuarioLine : List String → Option String
  | _ :: _ :: _ :: _ :: l :: _ => stripPrefixStr "ID Usuario: " l
  | _ => none

/-- Run a sequence of `POST /turno` requests one after the other (no
concurrency), collecting the responses and the final store. -/
def createsTrace (now : Fecha) : Store → List (String × String × String) →
    List PostTurnoResult × Store
  | s, [] => ([], s)
  | s, (u, n, r) :: rest =>
    let step := postTurno now s u n r
    ((step.2 :: (createsTrace now step.1 rest).1), (createsTrace now step.1 rest).2)

/-- The ticket labels minted by a list of responses, in order: one label per
`created` response (an `existing` or error response mints nothing). -/
def mintedTickets : List PostTurnoResult → List String
  | [] => []
  | PostTurnoResult.created t _ :: rest => t.ticket :: mintedTickets rest
  | _ :: rest => mintedTickets rest

/-- A fixed timestamp used to instantiate theorems on concrete inputs. -/
def fechaEjemplo : Fecha := ⟨7, 10, 2025, 12, 30⟩

/-! ## Helper lemmas -/

theorem stripPrefixStr_append (p s : String) : stripPrefixStr p (p ++ s) = some s := by
  unfold stripPrefixStr
  rw [String.data_append]
  have hpre : p.data.isPrefixOf (p.data ++ s.data) = true := by
    rw [List.isPrefixOf_iff_prefix]
    exact List.prefix_append _ _
  rw [if_pos hpre, List.drop_left]

theorem decimalAux_length (k : Nat) : ∀ fuel n, n < fuel → 10 ^ k ≤ n →
    k + 1 ≤ (decimalAux fuel n).length := by
  induction k with
  | zero =>
    intro fuel n hfuel _
    cases fuel with
    | zero => omega
    | succ f =>
      unfold decimalAux
      split
      · simp
      · simp
  | succ k ih =>
    intro fuel n hfuel hn
    cases fuel with
    | zero => omega
    | succ f =>
      have h10 : ¬ n < 10 := by
        have h1 : (10 : Nat) ^ 1 ≤ 10 ^ (k + 1) := Nat.pow_le_pow_right (by norm_num) (by omega)
        simp at h1
        omega
      unfold decimalAux
      rw [if_neg h10]
      rw [List.length_append]
      have hdiv : 10 ^ k ≤ n / 10 := by
        rw [Nat.le_div_iff_mul_le (by norm_num)]
        calc 10 ^ k * 10 = 10 ^ (k + 1) := (Nat.pow_succ 10 k).symm
        _ ≤ n := hn
      have hfuel' : n / 10 < f := by
        have : n / 10 < n := Nat.div_lt_self (by omega) (by norm_num)
        omega
      have := ih f (n / 10) hfuel' hdiv
      simp
      omega

theorem decimalStr_length (k n : Nat) (h : 10 ^ k ≤ n) :
    k + 1 ≤ (decimalStr n).data.length :=
  decimalAux_length k (n + 1) n (Nat.lt_succ_self n) h

theorem padStart_of_long (s : String) (w : Nat) (c : Char) (h : w ≤ s.data.length) :
    padStart s w c = s := by
  unfold padStart
  rw [Nat.sub_eq_zero_of_le h]
  simp

theorem findByUserId_any_false (s : Store) (u : String) (h : findByUserId s u = none) :
    s.turnos.any (fun t => t.id_usuario == u) = false := by
  rw [List.any_eq_false]
  intro x hx
  have := List.find?_eq_none.1 h x hx
  simpa using this

/-- A valid `POST /turno` for a user with no row: the handler inserts a fresh
row carrying the label `generarTicket s` and the next serial id. -/
theorem postTurno_fresh (now : Fecha) (s : Store) (u n r : String)
    (hu : u ≠ "") (hn : n ≠ "") (hr : r ≠ "") (hfind : findByUserId s u = none) :
    postTurno now s u n r =
      (⟨s.turnos ++ [⟨s.nextId, u, n, r, generarTicket s, now⟩], s.nextId + 1⟩,
       PostTurnoResult.created ⟨s.nextId, u, n, r, generarTicket s, now⟩
         ("Turno asignado correctamente a " ++ n)) := by
  have hany := findByUserId_any_false s u hfind
  unfold postTurno postTurnoRaced
  rw [if_neg (by simp [hu, hn, hr])]
  rw [hfind]
  unfold insertTurno
  rw [if_neg (by simp [hany])]

/-- `updateRow` keeps the primary key. -/
theorem updateRow_id (i : Nat) (n r : String) (t : Turno) :
    (updateRow i n r t).id = t.id := by
  unfold updateRow
  split <;> rfl

theorem updateRow_of_ne (i : Nat) (n r : String) (t : Turno) (h : t.id ≠ i) :
    updateRow i n r t = t := by
  unfold updateRow
  rw [if_neg h]

theorem map_updateRow_of_absent (l : List Turno) (i : Nat) (n r : String)
    (h : ∀ x ∈ l, x.id ≠ i) : l.map (updateRow i n r) = l := by
  rw [List.map_congr_left (fun x hx => updateRow_of_ne i n r x (h x hx))]
  exact List.map_id l

theorem findById_none_of_absent (l : List Turno) (i : Nat) (h : ∀ x ∈ l, x.id ≠ i) :
    l.find? (fun t => t.id == i) = none := by
  rw [List.find?_eq_none]
  intro x hx
  simpa using h x hx

theorem findById_absent (s : Store) (i : Nat) (h : findById s i = none) :
    ∀ x ∈ s.turnos, x.id ≠ i := by
  intro x hx
  have := List.find?_eq_none.1 h x hx
  simpa using this

/-! ## Claim theorems -/

/-- C1: for every store state and every valid `(userId, name, request)` with the
`userId` not yet present, the first create inserts a record whose `ticketLabel`
is `"T-"` followed by `count + 1` zero-padded to 4 digits, where `count` is the
number of records at the moment of creation; for `count + 1 ≥ 10000` the label
is the unpadded decimal digits after `"T-"`. -/
theorem c1_first_create_ticket_label (now : Fecha) (s : Store) (u n r : String)
    (hu : u ≠ "") (hn : n ≠ "") (hr : r ≠ "") (hfind : findByUserId s u = none) :
    ∃ t : Turno,
      postTurno now s u n r =
        (⟨s.turnos ++ [t], s.nextId + 1⟩,
         PostTurnoResult.created t ("Turno asignado correctamente a " ++ n)) ∧
      t.ticket = "T-" ++ padStart (decimalStr (countTurnos s + 1)) 4 '0' ∧
      (10000 ≤ countTurnos s + 1 → t.ticket = "T-" ++ decimalStr (countTurnos s + 1)) := by
  refine ⟨⟨s.nextId, u, n, r, generarTicket s, now⟩,
    postTurno_fresh now s u n r hu hn hr hfind, rfl, ?_⟩
  intro h
  show generarTicket s = _
  unfold generarTicket
  have hpow : (10 : Nat) ^ 4 = 10000 := by norm_num
  have h4 : (4 : Nat) ≤ (decimalStr (countTurnos s + 1)).data.length := by
    have h5 := decimalStr_length 4 (countTurnos s + 1) (by omega)
    omega
  rw [padStart_of_long _ _ _ h4]

/-- Witness for C1: the very first create on an empty store. -/
theorem c1_first_create_ticket_label_witness :
    ∃ t : Turno,
      postTurno fechaEjemplo ⟨[], 1⟩ "u1" "Ann" "Q1" =
        (⟨[] ++ [t], 1 + 1⟩,
         PostTurnoResult.created t ("Turno asignado correctamente a " ++ "Ann")) ∧
      t.ticket = "T-" ++ padStart (decimalStr (countTurnos ⟨[], 1⟩ + 1)) 4 '0' ∧
      (10000 ≤ countTurnos ⟨[], 1⟩ + 1 →
        t.ticket = "T-" ++ decimalStr (countTurnos ⟨[], 1⟩ + 1)) :=
  c1_first_create_ticket_label fechaEjemplo ⟨[], 1⟩ "u1" "Ann" "Q1"
    (by decide) (by decide) (by decide) (by decide)

/-- C2: for every `userId` already present, a second create with that `userId`
(and any non-empty name and request) answers with the stored record and its
original label, inserts nothing, modifies nothing, and returns the store
unchanged (in particular the record count is unchanged). -/
theorem c2_repeat_create_returns_existing (now : Fecha) (s : Store) (u n r : String)
    (t : Turno) (hu : u ≠ "") (hn : n ≠ "") (hr : r ≠ "")
    (hfind : findByUserId s u = some t) :
    postTurno now s u n r =
      (s, PostTurnoResult.existing t ("Ya tienes un turno asignado: " ++ t.ticket)) := by
  unfold postTurno postTurnoRaced
  rw [if_neg (by simp [hu, hn, hr])]
  rw [hfind]

/-- Witness for C2: the spec scenario — after `createOrGet("u1","Ann","Q1")`,
the call `createOrGet("u1","Ann2","Q2")` returns the original `T-0001` record
with name `"Ann"`, and the store is unchanged. -/
theorem c2_repeat_create_returns_existing_witness :
    postTurno fechaEjemplo ⟨[⟨1, "u1", "Ann", "Q1", "T-0001", fechaEjemplo⟩], 2⟩
        "u1" "Ann2" "Q2" =
      (⟨[⟨1, "u1", "Ann", "Q1", "T-0001", fechaEjemplo⟩], 2⟩,
       PostTurnoResult.existing ⟨1, "u1", "Ann", "Q1", "T-0001", fechaEjemplo⟩
         ("Ya tienes un turno asignado: " ++ "T-0001")) :=
  c2_repeat_create_returns_existing fechaEjemplo
    ⟨[⟨1, "u1", "Ann", "Q1", "T-0001", fechaEjemplo⟩], 2⟩ "u1" "Ann2" "Q2"
    ⟨1, "u1", "Ann", "Q1", "T-0001", fechaEjemplo⟩
    (by decide) (by decide) (by decide) (by decide)

/-- C3: for an existing record id and non-empty name and request, the update
changes only `nombre` and `solicitud` of that record and answers with the full
updated record; `ticket`, `fecha`, `id` and `id_usuario` of that record are
unchanged, and every other record of the store is left exactly as it was. -/
theorem c3_update_only_name_request (s : Store) (i : Nat) (n r : String) (t : Turno)
    (hn : n ≠ "") (hr : r ≠ "") (hfind : findById s i = some t) :
    putTurno s i n r =
      (⟨s.turnos.map (updateRow i n r), s.nextId⟩,
       PutTurnoResult.updated { t with nombre := n, solicitud := r }
         "Turno actualizado correctamente") ∧
    ({ t with nombre := n, solicitud := r } : Turno).ticket = t.ticket ∧
    ({ t with nombre := n, solicitud := r } : Turno).fecha = t.fecha ∧
    ({ t with nombre := n, solicitud := r } : Turno).id = t.id ∧
    ({ t with nombre := n, solicitud := r } : Turno).id_usuario = t.id_usuario ∧
    (∀ x ∈ s.turnos, x.id ≠ i → updateRow i n r x = x) := by
  have hid : t.id = i := by simpa using List.find?_some hfind
  have hrow : updateRow i n r t = { t with nombre := n, solicitud := r } := by
    unfold updateRow
    rw [if_pos hid]
  refine ⟨?_, rfl, rfl, rfl, rfl, fun x _ hx => updateRow_of_ne i n r x hx⟩
  unfold putTurno
  rw [if_neg (by simp [hn, hr])]
  rw [hfind]
  simp only [hrow]

/-- Witness for C3: the spec scenario — updating record 1 to name `"Bob"` and a
new request on a two-record store touches only that record. -/
theorem c3_update_only_name_request_witness :
    putTurno ⟨[⟨1, "u1", "Ann", "Q1", "T-0001", fechaEjemplo⟩,
               ⟨2, "u2", "Bob", "Q2", "T-0002", fechaEjemplo⟩], 3⟩ 1 "Bob" "New request" =
      (⟨([⟨1, "u1", "Ann", "Q1", "T-0001", fechaEjemplo⟩,
          ⟨2, "u2", "Bob", "Q2", "T-0002", fechaEjemplo⟩] :
          List Turno).map (updateRow 1 "Bob" "New request"), 3⟩,
       PutTurnoResult.updated
         { (⟨1, "u1", "Ann", "Q1", "T-0001", fechaEjemplo⟩ : Turno) with
             nombre := "Bob", solicitud := "New request" }
         "Turno actualizado correctamente") ∧
    ({ (⟨1, "u1", "Ann", "Q1", "T-0001", fechaEjemplo⟩ : Turno) with
        nombre := "Bob", solicitud := "New request" } : Turno).ticket =
      (⟨1, "u1", "Ann", "Q1", "T-0001", fechaEjemplo⟩ : Turno).ticket ∧
    ({ (⟨1, "u1", "Ann", "Q1", "T-0001", fechaEjemplo⟩ : Turno) with
        nombre := "Bob", solicitud := "New request" } : Turno).fecha =
      (⟨1, "u1", "Ann", "Q1", "T-0001", fechaEjemplo⟩ : Turno).fecha ∧
    ({ (⟨1, "u1", "Ann", "Q1", "T-0001", fechaEjemplo⟩ : Turno) with
        nombre := "Bob", solicitud := "New request" } : Turno).id =
      (⟨1, "u1", "Ann", "Q1", "T-0001", fechaEjemplo⟩ : Turno).id ∧
    ({ (⟨1, "u1", "Ann", "Q1", "T-0001", fechaEjemplo⟩ : Turno) with
        nombre := "Bob", solicitud := "New request" } : Turno).id_usuario =
      (⟨1, "u1", "Ann", "Q1", "T-0001", fechaEjemplo⟩ : Turno).id_usuario ∧
    (∀ x ∈ ([⟨1, "u1", "Ann", "Q1", "T-0001", fechaEjemplo⟩,
             ⟨2, "u2", "Bob", "Q2", "T-0002", fechaEjemplo⟩] : List Turno),
      x.id ≠ 1 → updateRow 1 "Bob" "New request" x = x) :=
  c3_update_only_name_request
    ⟨[⟨1, "u1", "Ann", "Q1", "T-0001", fechaEjemplo⟩,
      ⟨2, "u2", "Bob", "Q2", "T-0002", fechaEjemplo⟩], 3⟩ 1 "Bob" "New request"
    ⟨1, "u1", "Ann", "Q1", "T-0001", fechaEjemplo⟩
    (by decide) (by decide) (by decide)

/-- One sequential `POST /turno` either leaves the store unchanged and answers
with something other than `created`, or appends exactly one fresh row labelled
`generarTicket s`. -/
theorem postTurno_step (now : Fecha) (s : Store) (u n r : String) :
    ((postTurno now s u n r).1 = s ∧
      ∀ t m, (postTurno now s u n r).2 ≠ PostTurnoResult.created t m) ∨
    postTurno now s u n r =
      (⟨s.turnos ++ [⟨s.nextId, u, n, r, generarTicket s, now⟩], s.nextId + 1⟩,
       PostTurnoResult.created ⟨s.nextId, u, n, r, generarTicket s, now⟩
         ("Turno asignado correctamente a " ++ n)) := by
  by_cases hval : u = "" ∨ n = "" ∨ r = ""
  · left
    unfold postTurno postTurnoRaced
    rw [if_pos hval]
    exact ⟨rfl, fun t m h => by simp at h⟩
  · cases hfind : findByUserId s u with
    | some t =>
      left
      unfold postTurno postTurnoRaced
      rw [if_neg hval, hfind]
      exact ⟨rfl, fun t' m h => by simp at h⟩
    | none =>
      right
      push_neg at hval
      exact postTurno_fresh now s u n r hval.1 hval.2.1 hval.2.2 hfind

theorem mintedTickets_cons_of_ne (res : PostTurnoResult) (l : List PostTurnoResult)
    (h : ∀ t m, res ≠ PostTurnoResult.created t m) :
    mintedTickets (res :: l) = mintedTickets l := by
  cases res with
  | created t m => exact absurd rfl (h t m)
  | validationError e => rfl
  | existing t m => rfl
  | serverError e => rfl

/-- The labels minted along any sequential trace of creates are exactly the
consecutive sequence numbers starting at `count + 1`, each formatted by the
allocator. -/
theorem createsTrace_minted (now : Fecha) :
    ∀ (inputs : List (String × String × String)) (s : Store),
      mintedTickets (createsTrace now s inputs).1 =
        (List.range' (countTurnos s + 1)
          (mintedTickets (createsTrace now s inputs).1).length).map
          (fun k => "T-" ++ padStart (decimalStr k) 4 '0') := by
  intro inputs
  induction inputs with
  | nil => intro s; rfl
  | cons hd tl ih =>
    intro s
    obtain ⟨u, n, r⟩ := hd
    rcases postTurno_step now s u n r with ⟨hs, hnc⟩ | hstep
    · simp only [createsTrace]
      rw [hs]
      rw [mintedTickets_cons_of_ne _ _ hnc]
      exact ih s
    · simp only [createsTrace]
      rw [hstep]
      simp only [mintedTickets, List.length_cons, List.range'_succ, List.map_cons]
      have hc : countTurnos ⟨s.turnos ++ [⟨s.nextId, u, n, r, generarTicket s, now⟩],
          s.nextId + 1⟩ = countTurnos s + 1 := by
        simp [countTurnos]
      congr 1
      conv_lhs => rw [ih _]
      rw [hc]

/-- C4: along any sequential trace of create requests the minted `ticketLabel`s
are the allocator's formatting of the consecutive sequence numbers
`count+1, count+2, ...`, which are strictly increasing in assignment order; in
particular creating tickets for the three new users `u1, u2, u3` in sequence
yields the labels `T-0001, T-0002, T-0003`. -/
theorem c4_sequential_labels_increasing :
    (∀ (now : Fecha) (s : Store) (inputs : List (String × String × String)),
      mintedTickets (createsTrace now s inputs).1 =
        (List.range' (countTurnos s + 1)
          (mintedTickets (createsTrace now s inputs).1).length).map
          (fun k => "T-" ++ padStart (decimalStr k) 4 '0') ∧
      List.Chain' (· < ·)
        (List.range' (countTurnos s + 1)
          (mintedTickets (createsTrace now s inputs).1).length)) ∧
    mintedTickets (createsTrace fechaEjemplo ⟨[], 1⟩
      [("u1", "Ann", "Q1"), ("u2", "Bob", "Q2"), ("u3", "Cara", "Q3")]).1 =
      ["T-0001", "T-0002", "T-0003"] := by
  refine ⟨fun now s inputs => ⟨createsTrace_minted now inputs s, ?_⟩, by decide⟩
  exact (List.pairwise_lt_range' _ _).chain'

/-- C5 counterexample: a create whose lookup saw no row but whose insert hits
the `UNIQUE` constraint (another request inserted `"u1"` in between) does fail
with `ConstraintViolation`, and the handler's `catch` surfaces it to the client
as the generic 500 response instead of retrying the lookup and returning the
stored record. -/
theorem c5_constraint_violation_counterexample :
    insertTurno ⟨[⟨1, "u1", "Ann", "Q1", "T-0001", fechaEjemplo⟩], 2⟩ "u1" "Ann" "Q1"
        (generarTicket ⟨[⟨1, "u1", "Ann", "Q1", "T-0001", fechaEjemplo⟩], 2⟩) fechaEjemplo =
      Except.error "ConstraintViolation" ∧
    postTurnoRaced fechaEjemplo ⟨[], 1⟩ ⟨[⟨1, "u1", "Ann", "Q1", "T-0001", fechaEjemplo⟩], 2⟩
        "u1" "Ann" "Q1" =
      (⟨[⟨1, "u1", "Ann", "Q1", "T-0001", fechaEjemplo⟩], 2⟩,
       PostTurnoResult.serverError "Error al procesar el turno") ∧
    (∀ t m, (postTurnoRaced fechaEjemplo ⟨[], 1⟩
        ⟨[⟨1, "u1", "Ann", "Q1", "T-0001", fechaEjemplo⟩], 2⟩ "u1" "Ann" "Q1").2 ≠
      PostTurnoResult.existing t m) := by
  refine ⟨rfl, by decide, ?_⟩
  intro t m h
  rw [show (postTurnoRaced fechaEjemplo ⟨[], 1⟩
      ⟨[⟨1, "u1", "Ann", "Q1", "T-0001", fechaEjemplo⟩], 2⟩ "u1" "Ann" "Q1").2 =
      PostTurnoResult.serverError "Error al procesar el turno" from by decide] at h
  simp at h

/-- C5 (amended): when the lookup saw no row for the `userId` but the insert
runs against a store that already has one, the insert's `ConstraintViolation`
is not recovered: it propagates to the handler's `catch` block and the client
receives the generic 500 (`"Error al procesar el turno"`); the store is the
insert-time store, unchanged. -/
theorem c5_constraint_violation_surfaced (now : Fecha) (sLook sIns : Store)
    (u n r : String) (hu : u ≠ "") (hn : n ≠ "") (hr : r ≠ "")
    (hlook : findByUserId sLook u = none)
    (hdup : sIns.turnos.any (fun t => t.id_usuario == u) = true) :
    insertTurno sIns u n r (generarTicket sIns) now = Except.error "ConstraintViolation" ∧
    postTurnoRaced now sLook sIns u n r =
      (sIns, PostTurnoResult.serverError "Error al procesar el turno") := by
  have hins : insertTurno sIns u n r (generarTicket sIns) now =
      Except.error "ConstraintViolation" := by
    unfold insertTurno
    rw [if_pos hdup]
  refine ⟨hins, ?_⟩
  unfold postTurnoRaced
  rw [if_neg (by simp [hu, hn, hr])]
  rw [hlook, hins]

/-- Witness for the amended C5. -/
theorem c5_constraint_violation_surfaced_witness :
    insertTurno ⟨[⟨1, "u9", "Eve", "Q9", "T-0001", fechaEjemplo⟩], 2⟩ "u9" "Eva" "Q8"
        (generarTicket ⟨[⟨1, "u9", "Eve", "Q9", "T-0001", fechaEjemplo⟩], 2⟩) fechaEjemplo =
      Except.error "ConstraintViolation" ∧
    postTurnoRaced fechaEjemplo ⟨[], 1⟩ ⟨[⟨1, "u9", "Eve", "Q9", "T-0001", fechaEjemplo⟩], 2⟩
        "u9" "Eva" "Q8" =
      (⟨[⟨1, "u9", "Eve", "Q9", "T-0001", fechaEjemplo⟩], 2⟩,
       PostTurnoResult.serverError "Error al procesar el turno") :=
  c5_constraint_violation_surfaced fechaEjemplo ⟨[], 1⟩
    ⟨[⟨1, "u9", "Eve", "Q9", "T-0001", fechaEjemplo⟩], 2⟩ "u9" "Eva" "Q8"
    (by decide) (by decide) (by decide) (by decide) (by decide)

/-- C6: create answers 400 (`ValidationError`) as soon as any of
`userId`/`name`/`request` is missing or empty, and update answers 400 when
`name` or `request` is empty; in both cases the store comes back untouched, so
the failure happens before any record is created or modified. -/
theorem c6_validation_errors (now : Fecha) (s : Store) (u n r : String)
    (i : Nat) (n2 r2 : String) :
    ((u = "" ∨ n = "" ∨ r = "") →
      postTurno now s u n r =
        (s, PostTurnoResult.validationError
          "Faltan datos requeridos: id_usuario, nombre y solicitud son obligatorios")) ∧
    ((n2 = "" ∨ r2 = "") →
      putTurno s i n2 r2 =
        (s, PutTurnoResult.validationError
          "Faltan datos: nombre y solicitud son obligatorios")) := by
  constructor
  · intro h
    unfold postTurno postTurnoRaced
    rw [if_pos h]
  · intro h
    unfold putTurno
    rw [if_pos h]

/-- Witness for C6: missing `userId` on create, missing `nombre` on update. -/
theorem c6_validation_errors_witness :
    postTurno fechaEjemplo ⟨[], 1⟩ "" "Ann" "Q1" =
      (⟨[], 1⟩, PostTurnoResult.validationError
        "Faltan datos requeridos: id_usuario, nombre y solicitud son obligatorios") ∧
    putTurno ⟨[], 1⟩ 1 "" "Q1" =
      (⟨[], 1⟩, PutTurnoResult.validationError
        "Faltan datos: nombre y solicitud son obligatorios") :=
  ⟨(c6_validation_errors fechaEjemplo ⟨[], 1⟩ "" "Ann" "Q1" 1 "" "Q1").1 (Or.inl rfl),
   (c6_validation_errors fechaEjemplo ⟨[], 1⟩ "" "Ann" "Q1" 1 "" "Q1").2 (Or.inl rfl)⟩

/-- C7: delete answers 404 (`NotFound`) and leaves the store untouched when no
record with the id exists; when the record exists, delete answers with the
removed record and a subsequent fetch of that id (the receipt route, the only
get-by-id of the service) answers 404. -/
theorem c7_remove_semantics (s : Store) (i : Nat) (ahora : Fecha) :
    (findById s i = none →
      deleteTurno s i = (s, DeleteTurnoResult.notFound "Turno no encontrado")) ∧
    (∀ t, findById s i = some t →
      (deleteTurno s i).2 = DeleteTurnoResult.deleted t "Turno eliminado correctamente" ∧
      getTurnoPdf (deleteTurno s i).1 i ahora =
        ((deleteTurno s i).1, PdfResult.notFound "Turno no encontrado")) := by
  constructor
  · intro h
    unfold deleteTurno
    rw [h]
  · intro t h
    have hdel : deleteTurno s i =
        (⟨s.turnos.filter (fun x => !(x.id == i)), s.nextId⟩,
         DeleteTurnoResult.deleted t "Turno eliminado correctamente") := by
      unfold deleteTurno
      rw [h]
    rw [hdel]
    refine ⟨rfl, ?_⟩
    have hnone : findById ⟨s.turnos.filter (fun x => !(x.id == i)), s.nextId⟩ i = none := by
      unfold findById
      rw [List.find?_eq_none]
      intro x hx
      have hq := List.of_mem_filter hx
      simp at hq ⊢
      exact hq
    unfold getTurnoPdf
    rw [hnone]

/-- Witness for C7: deleting the absent id 999 answers 404; deleting the
existing id 1 returns the record and its receipt fetch then answers 404. -/
theorem c7_remove_semantics_witness :
    deleteTurno ⟨[⟨1, "u1", "Ann", "Q1", "T-0001", fechaEjemplo⟩], 2⟩ 999 =
      (⟨[⟨1, "u1", "Ann", "Q1", "T-0001", fechaEjemplo⟩], 2⟩,
       DeleteTurnoResult.notFound "Turno no encontrado") ∧
    ((deleteTurno ⟨[⟨1, "u1", "Ann", "Q1", "T-0001", fechaEjemplo⟩], 2⟩ 1).2 =
      DeleteTurnoResult.deleted ⟨1, "u1", "Ann", "Q1", "T-0001", fechaEjemplo⟩
        "Turno eliminado correctamente" ∧
     getTurnoPdf (deleteTurno ⟨[⟨1, "u1", "Ann", "Q1", "T-0001", fechaEjemplo⟩], 2⟩ 1).1 1
         fechaEjemplo =
       ((deleteTurno ⟨[⟨1, "u1", "Ann", "Q1", "T-0001", fechaEjemplo⟩], 2⟩ 1).1,
        PdfResult.notFound "Turno no encontrado")) :=
  ⟨(c7_remove_semantics ⟨[⟨1, "u1", "Ann", "Q1", "T-0001", fechaEjemplo⟩], 2⟩ 999
      fechaEjemplo).1 (by decide),
   (c7_remove_semantics ⟨[⟨1, "u1", "Ann", "Q1", "T-0001", fechaEjemplo⟩], 2⟩ 1
      fechaEjemplo).2 ⟨1, "u1", "Ann", "Q1", "T-0001", fechaEjemplo⟩ (by decide)⟩

/-- C8: for every ticket record, rendering the receipt and then parsing the
ticket label, the name and the user id back out of the rendered text yields
exactly the original field values (a textual round-trip). -/
theorem c8_render_roundtrip (t : Turno) (ahora : Fecha) :
    parseTicketLine (renderLines t ahora) = some t.ticket ∧
    parseNombreLine (renderLines t ahora) = some t.nombre ∧
    parseIdUsuarioLine (renderLines t ahora) = some t.id_usuario := by
  refine ⟨?_, ?_, ?_⟩ <;>
    simp [renderLines, parseTicketLine, parseNombreLine, parseIdUsuarioLine,
      stripPrefixStr_append]

/-- C9: the next ticket label depends only on the current record count, not on
which ids or labels exist; consequently the strictly sequential trace
create `u1`, create `u2`, delete id 1, create `u3` ends with two simultaneously
stored records (ids 2 and 3) carrying the same label `T-0002` — per-record
label uniqueness is not an invariant of the store. -/
theorem c9_label_depends_only_on_count (s s' : Store)
    (h : countTurnos s = countTurnos s') :
    generarTicket s = generarTicket s' ∧
    (postTurno fechaEjemplo
        (deleteTurno
          (postTurno fechaEjemplo
            (postTurno fechaEjemplo ⟨[], 1⟩ "u1" "Ann" "Q1").1 "u2" "Bob" "Q2").1
          1).1
        "u3" "Cara" "Q3").1.turnos =
      [⟨2, "u2", "Bob", "Q2", "T-0002", fechaEjemplo⟩,
       ⟨3, "u3", "Cara", "Q3", "T-0002", fechaEjemplo⟩] ∧
    (∃ a ∈ (postTurno fechaEjemplo
        (deleteTurno
          (postTurno fechaEjemplo
            (postTurno fechaEjemplo ⟨[], 1⟩ "u1" "Ann" "Q1").1 "u2" "Bob" "Q2").1
          1).1
        "u3" "Cara" "Q3").1.turnos,
     ∃ b ∈ (postTurno fechaEjemplo
        (deleteTurno
          (postTurno fechaEjemplo
            (postTurno fechaEjemplo ⟨[], 1⟩ "u1" "Ann" "Q1").1 "u2" "Bob" "Q2").1
          1).1
        "u3" "Cara" "Q3").1.turnos, a.id ≠ b.id ∧ a.ticket = b.ticket) := by
  refine ⟨?_, by decide, by decide⟩
  unfold generarTicket
  rw [h]

/-- Witness for C9: two stores with one record each but different contents get
the same next label. -/
theorem c9_label_depends_only_on_count_witness :
    generarTicket ⟨[⟨1, "u1", "Ann", "Q1", "T-0001", fechaEjemplo⟩], 2⟩ =
      generarTicket ⟨[⟨7, "u7", "Eve", "Q7", "T-0099", fechaEjemplo⟩], 9⟩ :=
  (c9_label_depends_only_on_count
    ⟨[⟨1, "u1", "Ann", "Q1", "T-0001", fechaEjemplo⟩], 2⟩
    ⟨[⟨7, "u7", "Eve", "Q7", "T-0099", fechaEjemplo⟩], 9⟩ (by decide)).1

/-- C10: every `ValidationError` or `NotFound` path leaves the stored table
completely unchanged — create/update validation failures, and update, delete or
receipt fetch for an absent id neither create, modify nor remove any record. -/
theorem c10_error_paths_leave_store (now : Fecha) (s : Store) (u n r : String)
    (i : Nat) (n2 r2 : String) (ahora : Fecha) :
    ((u = "" ∨ n = "" ∨ r = "") → (postTurno now s u n r).1 = s) ∧
    ((n2 = "" ∨ r2 = "") → (putTurno s i n2 r2).1 = s) ∧
    (findById s i = none →
      (putTurno s i n2 r2).1 = s ∧
      (deleteTurno s i).1 = s ∧
      (getTurnoPdf s i ahora).1 = s) := by
  refine ⟨?_, ?_, ?_⟩
  · intro h
    unfold postTurno postTurnoRaced
    rw [if_pos h]
  · intro h
    unfold putTurno
    rw [if_pos h]
  · intro h
    have habs := findById_absent s i h
    refine ⟨?_, ?_, ?_⟩
    · unfold putTurno
      by_cases hv : n2 = "" ∨ r2 = ""
      · rw [if_pos hv]
      · rw [if_neg hv]
        rw [h]
        show (⟨s.turnos.map (updateRow i n2 r2), s.nextId⟩ : Store) = s
        rw [map_updateRow_of_absent _ _ _ _ habs]
    · unfold deleteTurno
      rw [h]
    · unfold getTurnoPdf
      rw [h]

/-- Witness for C10: a one-record store survives a create with missing
`userId`, an update with missing `nombre`, and update/delete/receipt for the
absent id 999. -/
theorem c10_error_paths_leave_store_witness :
    (postTurno fechaEjemplo ⟨[⟨1, "u1", "Ann", "Q1", "T-0001", fechaEjemplo⟩], 2⟩
        "" "Ann" "Q1").1 = ⟨[⟨1, "u1", "Ann", "Q1", "T-0001", fechaEjemplo⟩], 2⟩ ∧
    (putTurno ⟨[⟨1, "u1", "Ann", "Q1", "T-0001", fechaEjemplo⟩], 2⟩ 999 "" "Q9").1 =
      ⟨[⟨1, "u1", "Ann", "Q1", "T-0001", fechaEjemplo⟩], 2⟩ ∧
    ((putTurno ⟨[⟨1, "u1", "Ann", "Q1", "T-0001", fechaEjemplo⟩], 2⟩ 999 "" "Q9").1 =
      ⟨[⟨1, "u1", "Ann", "Q1", "T-0001", fechaEjemplo⟩], 2⟩ ∧
     (deleteTurno ⟨[⟨1, "u1", "Ann", "Q1", "T-0001", fechaEjemplo⟩], 2⟩ 999).1 =
      ⟨[⟨1, "u1", "Ann", "Q1", "T-0001", fechaEjemplo⟩], 2⟩ ∧
     (getTurnoPdf ⟨[⟨1, "u1", "Ann", "Q1", "T-0001", fechaEjemplo⟩], 2⟩ 999 fechaEjemplo).1 =
      ⟨[⟨1, "u1", "Ann", "Q1", "T-0001", fechaEjemplo⟩], 2⟩) :=
  ⟨(c10_error_paths_leave_store fechaEjemplo
      ⟨[⟨1, "u1", "Ann", "Q1", "T-0001", fechaEjemplo⟩], 2⟩ "" "Ann" "Q1" 999 "" "Q9"
      fechaEjemplo).1 (Or.inl rfl),
   (c10_error_paths_leave_store fechaEjemplo
      ⟨[⟨1, "u1", "Ann", "Q1", "T-0001", fechaEjemplo⟩], 2⟩ "" "Ann" "Q1" 999 "" "Q9"
      fechaEjemplo).2.1 (Or.inl rfl),
   (c10_error_paths_leave_store fechaEjemplo
      ⟨[⟨1, "u1", "Ann", "Q1", "T-0001", fechaEjemplo⟩], 2⟩ "" "Ann" "Q1" 999 "" "Q9"
      fechaEjemplo).2.2 (by decide)⟩
